import Mathlib

/-!
Verification development for the easy-dataset task-orchestration core and
LLM integration layer.

The repository ships the Electron shell in JavaScript
(`electron/modules/python-server.js` and friends) together with the design
and implementation documents of the Python backend
(`TASK_SYSTEM_IMPLEMENTATION.md`, `SCHEMA_VERIFICATION.md`,
`PROMPT_TEMPLATES_README.md`, the LLM-integration summaries).  The Python
modules themselves (`easy_dataset/services/task_service.py`,
`easy_dataset/llm/base.py`, the task handlers) are not part of the source
tree, so the task system and the provider layer are modelled here from the
specification, pinned wherever possible by the repository's own documents
(enum values, validation bounds, retry defaults, rubric weights).  The
Electron server-lifecycle functions are embedded from the JavaScript source
directly.
-/

namespace EasyDataset

/-! ## Task status and task records -/

/-- Modelled from the spec: the `TaskStatus` enum of the missing module
`easy_dataset/schemas/task.py`.  `SCHEMA_VERIFICATION.md` and
`TASK_SYSTEM_IMPLEMENTATION.md` document it as
`PROCESSING=0, COMPLETED=1, FAILED=2, INTERRUPTED=3`; there is no further
value, and `INTERRUPTED` is documented as "Task was canceled or
interrupted". -/
inductive TaskStatus where
  | processing
  | completed
  | failed
  | interrupted
deriving DecidableEq, Repr

/-- The integer codes stored in the `task.status` column
(`0=processing, 1=completed, 2=failed, 3=interrupted`). -/
def TaskStatus.code : TaskStatus → Nat
  | .processing => 0
  | .completed => 1
  | .failed => 2
  | .interrupted => 3

/-- A status is terminal when it is not `processing`. -/
def TaskStatus.isTerminal : TaskStatus → Bool
  | .processing => false
  | .completed => true
  | .failed => true
  | .interrupted => true

/-- Modelled from the spec: the `task` table row of the missing module
`easy_dataset/models`, with the fields the task-lifecycle operations act
on (`status`, `total_count`, `completed_count`, the persisted progress
percentage, the `end_time`-set flag and the `note` column). -/
structure TaskRecord where
  id : Nat
  projectId : Nat
  taskType : String
  status : TaskStatus
  totalCount : Nat
  completedCount : Nat
  percentage : ℚ
  endTimeSet : Bool
  note : String
deriving DecidableEq, Repr

/-- Modelled from the spec: `TaskService.create_task` of the missing module
`easy_dataset/services/task_service.py` inserts a record with
`status=Processing`, `completed_count=0` and zero progress. -/
def createTask (id projectId : Nat) (taskType : String) (totalCount : Nat) : TaskRecord :=
  { id := id
    projectId := projectId
    taskType := taskType
    status := TaskStatus.processing
    totalCount := totalCount
    completedCount := 0
    percentage := 0
    endTimeSet := false
    note := "" }

/-- Modelled from the spec: `TaskService.update_task_progress` increments
`completed_count` under the per-task single-writer discipline and persists
the new percentage `completed_count / total_count * 100`
(`TASK_SYSTEM_IMPLEMENTATION.md`, Progress Tracking). -/
def updateTaskProgress (t : TaskRecord) (delta : Nat) : TaskRecord :=
  let newCount := t.completedCount + delta
  { t with
      completedCount := newCount
      percentage := if t.totalCount = 0 then 0 else (newCount : ℚ) / (t.totalCount : ℚ) * 100 }

/-- One task execution, viewed from the progress counter: every completed
item issues one `update_progress(+1)` call; `order` lists the items in the
order in which they happen to complete. -/
def runProgress (t : TaskRecord) (order : List Nat) : TaskRecord :=
  order.foldl (fun acc _ => updateTaskProgress acc 1) t

/-- Modelled from the spec: `TaskService.cancel_task` on a running task.
The `TaskStatus` enum has no dedicated cancelled value;
`SCHEMA_VERIFICATION.md` documents `is_interrupted` as "Checks if task was
canceled", so cancellation marks the record `interrupted` and sets the end
time.  A record already in a terminal state is left unchanged. -/
def cancelTask (t : TaskRecord) : TaskRecord :=
  if t.status = TaskStatus.processing then
    { t with status := TaskStatus.interrupted, endTimeSet := true }
  else t

/-- Modelled from the spec: the per-record step of
`TaskService.recover_interrupted_tasks` — a record still marked
`processing` from a prior run transitions to `interrupted`; every other
record is untouched. -/
def recoverStatus (t : TaskRecord) : TaskRecord :=
  if t.status = TaskStatus.processing then
    { t with status := TaskStatus.interrupted, endTimeSet := true }
  else t

/-- Modelled from the spec: `TaskService.recover_interrupted_tasks()` scans
the store on startup, transitions stale `processing` records to
`interrupted`, and resumes nothing — the second component is the list of
task ids whose execution is restarted by the scan, and it is empty;
resumption requires an explicit new task. -/
def recoverInterruptedTasks (ts : List TaskRecord) : List TaskRecord × List Nat :=
  (ts.map recoverStatus, [])

/-! ## Generated artifacts and handler runs -/

/-- Modelled from the spec: the slice of the persistence collaborator the
handlers touch.  Chunks are owned by documents, questions reference a chunk
id, dataset entries reference a question id, conversations are owned by a
project (data model of the spec; linkage columns confirmed by
`SCHEMA_VERIFICATION.md`: `QuestionCreate` carries `chunk_id`,
`DatasetCreate` carries `question_id`). -/
structure Store where
  projectIds : List Nat
  chunkIds : List Nat
  questions : List (Nat × Nat)
  datasets : List (Nat × Nat)
  conversations : List (Nat × Nat)
deriving DecidableEq, Repr

/-- One unit of work of a `TaskHandler` variant: generate a question from a
chunk, a dataset entry (answer) from a question, or a conversation in a
project.  The first component is the id of the artifact to create, the
second the id of its source item. -/
inductive WorkItem where
  | genQuestion (newId chunkId : Nat)
  | genAnswer (newId questionId : Nat)
  | genConversation (newId projectId : Nat)
deriving DecidableEq, Repr

/-- Modelled from the spec: the shared per-item contract of every
`TaskHandler` variant — persist the artifact with an explicit reference to
its source item id, after the existence-check-before-write required of the
persistence collaborator.  An item whose source id does not exist persists
nothing. -/
def processItem (s : Store) : WorkItem → Store
  | WorkItem.genQuestion nid cid =>
    if cid ∈ s.chunkIds then { s with questions := (nid, cid) :: s.questions } else s
  | WorkItem.genAnswer nid qid =>
    if qid ∈ s.questions.map Prod.fst then { s with datasets := (nid, qid) :: s.datasets } else s
  | WorkItem.genConversation nid pid =>
    if pid ∈ s.projectIds then { s with conversations := (nid, pid) :: s.conversations } else s

/-- A handler run: the task's items in the order in which they complete.
Quantifying over `order` quantifies over every possible completion order. -/
def runHandler (s : Store) (order : List WorkItem) : Store :=
  order.foldl processItem s

/-- Linkage integrity: every artifact's stored source-item reference is an
existing id. -/
def linkageOk (s : Store) : Prop :=
  (∀ p ∈ s.questions, p.2 ∈ s.chunkIds)
  ∧ (∀ p ∈ s.datasets, p.2 ∈ s.questions.map Prod.fst)
  ∧ (∀ p ∈ s.conversations, p.2 ∈ s.projectIds)

instance (s : Store) : Decidable (linkageOk s) := by
  unfold linkageOk; infer_instance

/-- The combined state of one task execution: its record and the artifact
store. -/
structure ExecState where
  record : TaskRecord
  store : Store
deriving DecidableEq, Repr

/-- Modelled from the spec: cancelling a running execution marks the record
(the handler observes the signal between items) and touches no persisted
artifact. -/
def cancelExec (e : ExecState) : ExecState :=
  { e with record := cancelTask e.record }

/-! ## Provider retry policy -/

/-- Transient failures (timeout, connection error, rate limit) are retried;
permanent failures (auth rejected, malformed request, unsupported
capability) are not. -/
inductive FailureKind where
  | transient
  | permanent
deriving DecidableEq, Repr

/-- Modelled from the spec: the retry configuration of the missing module
`easy_dataset/llm/base.py`, with the defaults documented in the LLM
integration guide: `max_retries` 3, `initial_retry_delay` 1.0,
`retry_multiplier` 2.0, `max_retry_delay` 60.0. -/
structure RetryConfig where
  maxRetries : Nat
  initialRetryDelay : ℚ
  retryMultiplier : ℚ
  maxRetryDelay : ℚ
deriving DecidableEq, Repr

/-- The documented default retry configuration. -/
def defaultRetryConfig : RetryConfig :=
  { maxRetries := 3, initialRetryDelay := 1, retryMultiplier := 2, maxRetryDelay := 60 }

/-- The backoff delay slept before retry number `n` (zero-based):
`min(initial_delay * multiplier^n, max_delay)`. -/
def delayFor (cfg : RetryConfig) (n : Nat) : ℚ :=
  min (cfg.initialRetryDelay * cfg.retryMultiplier ^ n) cfg.maxRetryDelay

/-- Modelled from the spec: the retry loop of `BaseLLMProvider` in the
missing module `easy_dataset/llm/base.py`.  `f` is the backend: attempt
number `attempt` yields either a response or a failure of some kind.
`remaining` is the number of attempts the loop may still make.  The result
records the backoff delays slept, the number of calls made and the final
outcome: success returns at once, a permanent failure aborts with no
retry, and a transient failure sleeps `delayFor cfg attempt` and retries
while attempts remain. -/
def retryFrom (cfg : RetryConfig) (f : Nat → Except FailureKind String) :
    Nat → Nat → List ℚ × Nat × Except FailureKind String
  | 0, _ => ([], 0, Except.error FailureKind.transient)
  | remaining + 1, attempt =>
    match f attempt, remaining with
    | Except.ok s, _ => ([], 1, Except.ok s)
    | Except.error FailureKind.permanent, _ => ([], 1, Except.error FailureKind.permanent)
    | Except.error FailureKind.transient, 0 => ([], 1, Except.error FailureKind.transient)
    | Except.error FailureKind.transient, r + 1 =>
      let rest := retryFrom cfg f (r + 1) (attempt + 1)
      (delayFor cfg attempt :: rest.1, rest.2.1 + 1, rest.2.2)

/-- A provider call under the retry policy: up to `cfg.maxRetries` attempts
starting from attempt `0`. -/
def callWithRetry (cfg : RetryConfig) (f : Nat → Except FailureKind String) :
    List ℚ × Nat × Except FailureKind String :=
  retryFrom cfg f cfg.maxRetries 0

/-! ## Response parsing (chain-of-thought extraction) -/

/-- Split `l` at the first occurrence of the pattern `pat`: returns the
part before the occurrence and the part after it, or `none` when `pat`
does not occur in `l`. -/
def splitAtSub (pat : List Char) : List Char → Option (List Char × List Char)
  | [] => if pat.isEmpty then some ([], []) else none
  | c :: rest =>
    if pat.isPrefixOf (c :: rest) then some ([], (c :: rest).drop pat.length)
    else
      match splitAtSub pat rest with
      | some (pre, post) => some (c :: pre, post)
      | none => none

/-- Find a `openT … closeT` marker pair: the text before the opening tag,
the enclosed segment, and the text after the closing tag.  `none` when the
opening tag is absent or unterminated. -/
def extractTagged (openT closeT text : List Char) :
    Option (List Char × List Char × List Char) :=
  match splitAtSub openT text with
  | none => none
  | some (before, rest) =>
    match splitAtSub closeT rest with
    | none => none
    | some (inner, post) => some (before, inner, post)

/-- The characters of the tag pair recognised first. -/
def thinkOpen : List Char := "<think>".data

/-- Closing tag matching `thinkOpen`. -/
def thinkClose : List Char := "</think>".data

/-- The characters of the second recognised tag pair. -/
def thinkingOpen : List Char := "<thinking>".data

/-- Closing tag matching `thinkingOpen`. -/
def thinkingClose : List Char := "</thinking>".data

/-- Modelled from the spec: `extract_answer_and_cot` of the missing module
`easy_dataset/llm/base.py` — it handles the recognised tag conventions
(the implementation summary names the two tag spellings modelled here),
returning the reasoning segment and the remaining text as the answer;
absent a complete marker pair (including a malformed or unterminated one)
it returns an empty reasoning and the whole text as the answer, and it
never fails. -/
def extractAnswerAndCot (text : List Char) : List Char × List Char :=
  match extractTagged thinkOpen thinkClose text with
  | some (before, inner, post) => (inner, before ++ post)
  | none =>
    match extractTagged thinkingOpen thinkingClose text with
    | some (before, inner, post) => (inner, before ++ post)
    | none => ([], text)

/-! ## Streaming / non-streaming parity (conformance double) -/

/-- Split a character list into fragments of `n + 1` characters (the last
fragment may be shorter).  This is the fragment schedule of the
deterministic conformance stub's streaming mode. -/
def chunkChars (n : Nat) : List Char → List (List Char)
  | [] => []
  | c :: rest => ((c :: rest).take (n + 1)) :: chunkChars n ((c :: rest).drop (n + 1))
termination_by l => l.length
decreasing_by
  simp only [List.length_drop, List.length_cons]
  omega

/-- Modelled from the spec: the non-streaming mode of a deterministic
conformance test double — `complete` returns the backend's full text for
the input. -/
def stubComplete (gen : Nat → List Char) (x : Nat) : List Char := gen x

/-- Modelled from the spec: the streaming mode of the same deterministic
conformance double — `stream` yields the full text in fragments of
`n + 1` characters. -/
def stubStream (gen : Nat → List Char) (n : Nat) (x : Nat) : List (List Char) :=
  chunkChars n (gen x)

/-! ## Dataset evaluation -/

/-- The weighted rubric of the evaluation prompt, as documented:
question quality 25%, answer quality 35%, text relevance 25%,
overall consistency 15%. -/
structure RubricWeights where
  questionQuality : ℚ
  answerQuality : ℚ
  textRelevance : ℚ
  overallConsistency : ℚ
deriving DecidableEq, Repr

/-- The documented evaluation weights. -/
def evaluationWeights : RubricWeights :=
  { questionQuality := 25 / 100
    answerQuality := 35 / 100
    textRelevance := 25 / 100
    overallConsistency := 15 / 100 }

/-- The score validation of `DatasetCreate` as documented in
`SCHEMA_VERIFICATION.md`: `ge=0.0, le=5.0` — a range check and nothing
more. -/
def scoreValid (s : ℚ) : Bool :=
  decide (0 ≤ s ∧ s ≤ 5)

/-- Whether a rational is a multiple of one half (the 0.5-increment grid
the evaluation prompt asks the model for): in lowest terms its
denominator is 1 or 2. -/
def isHalfStep (q : ℚ) : Bool :=
  q.den = 1 || q.den = 2

/-- The parsed JSON reply of the evaluation model: a numeric score and a
textual evaluation. -/
structure EvalResponse where
  score : ℚ
  evaluation : String
deriving DecidableEq, Repr

/-- A dataset entry as the evaluation handler sees it: its id, the
question it references, the stored AI score (none before evaluation) and
the stored evaluation conclusion. -/
structure DatasetEntry where
  id : Nat
  questionId : Nat
  score : Option ℚ
  aiEvaluation : String
deriving DecidableEq, Repr

/-- Modelled from the spec: the per-entry step of the missing module
`easy_dataset/services/tasks/dataset_evaluation.py` — parse the model's
reply, validate the score against the schema's range check, and store the
score together with its textual rationale; a reply failing validation
leaves the entry unchanged (the item is skipped). -/
def evaluateEntry (d : DatasetEntry) (resp : EvalResponse) : DatasetEntry :=
  if scoreValid resp.score then
    { d with score := some resp.score, aiEvaluation := resp.evaluation }
  else d

/-! ## Task-level and item-level error handling -/

/-- Modelled from the spec: the item loop shared by the task handlers of
the missing package `easy_dataset/services/tasks/` — each item either
yields an artifact (an id paired with its source-item id) or an error;
item-level errors are recorded and only that item is skipped, the batch
continues.  Returns the persisted artifacts and the per-item error log, in
item order. -/
def runItems (process : Nat → Except String (Nat × Nat)) :
    List Nat → List (Nat × Nat) × List (Nat × String)
  | [] => ([], [])
  | i :: rest =>
    let r := runItems process rest
    match process i with
    | Except.ok art => (art :: r.1, r.2)
    | Except.error e => (r.1, (i, e) :: r.2)

/-- Modelled from the spec: the outer guard of
`TaskService.run_task_async` — a task-level exception (`setup`) is caught
and recorded in the record's `note` with status `failed`; otherwise the
item loop runs to the end, the record completes with `completed_count`
equal to the number of successful items, and the skipped items are listed
in the note.  In every case the function returns normally: nothing is
raised to the caller of `create_task`. -/
def executeTask (t : TaskRecord) (setup : Except String Unit)
    (process : Nat → Except String (Nat × Nat)) (items : List Nat) :
    TaskRecord × List (Nat × Nat) :=
  match setup with
  | Except.error e =>
    ({ t with status := TaskStatus.failed, note := e, endTimeSet := true }, [])
  | Except.ok _ =>
    let r := runItems process items
    ({ t with
        status := TaskStatus.completed
        completedCount := r.1.length
        note := "skipped " ++ toString r.2.length ++ " items"
        endTimeSet := true },
      r.1)

/-! ## Electron Python-server lifecycle (`electron/modules/python-server.js`) -/

/-- The environment `startPythonServer` probes: whether `checkPort` finds
the requested port busy, whether the backend directory exists, and after
how many one-second health polls (strictly fewer than the 30 allowed) the
`/health` endpoint answers 200, if it ever does. -/
structure PyEnv where
  portBusy : Bool
  backendDirExists : Bool
  healthyWithin : Option Nat
deriving DecidableEq, Repr

/-- The resolved value of `startPythonServer`: the backend URL and the
spawned child-process handle (`none` models the `null` handle). -/
structure ServerInfo where
  url : String
  child : Option Nat
deriving DecidableEq, Repr

/-- What one call to `startPythonServer` did: the value it resolved to (or
the error it rejected with) and how many backend processes it spawned. -/
structure StartOutcome where
  result : Except String ServerInfo
  spawnCount : Nat
deriving Repr

/-- The URL built by `startPythonServer`. -/
def serverUrl (port : Nat) : String :=
  "http://localhost:" ++ toString port

/-- Embedded from `startPythonServer` in
`electron/modules/python-server.js`: when `checkPort` reports the port
busy, the function returns `{ url, process: null }` at once, spawning
nothing; otherwise it checks the backend directory, spawns the Python
process, and polls `/health` for up to 30 seconds before resolving with
the process handle or rejecting on timeout. -/
def startPythonServer (env : PyEnv) (port : Nat) : StartOutcome :=
  if env.portBusy then
    { result := Except.ok { url := serverUrl port, child := none }, spawnCount := 0 }
  else if env.backendDirExists = false then
    { result := Except.error "Python backend directory not found", spawnCount := 0 }
  else
    match env.healthyWithin with
    | some k =>
      if k < 30 then
        { result := Except.ok { url := serverUrl port, child := some 1 }, spawnCount := 1 }
      else
        { result := Except.error "Python backend failed to start within timeout period"
          spawnCount := 1 }
    | none =>
      { result := Except.error "Python backend failed to start within timeout period"
        spawnCount := 1 }

/-- The signals `stopPythonServer` may send. -/
inductive PySignal where
  | sigterm
  | sigkill
deriving DecidableEq, Repr

/-- Embedded from `stopPythonServer` in
`electron/modules/python-server.js`: a `null` process handle returns at
once with no signal sent; otherwise SIGTERM is sent, followed by SIGKILL
when the process has not exited within the five-second grace period. -/
def stopPythonServer (child : Option Nat) (exitsWithinGrace : Bool) : List PySignal :=
  match child with
  | none => []
  | some _ =>
    if exitsWithinGrace then [PySignal.sigterm]
    else [PySignal.sigterm, PySignal.sigkill]

/-! ## Concrete inputs used by witnesses and counterexamples -/

/-- A store holding one project, two chunks, one question on chunk 10 and
nothing downstream; its linkage is intact. -/
def exampleStore : Store :=
  { projectIds := [1]
    chunkIds := [10, 11]
    questions := [(20, 10)]
    datasets := []
    conversations := [] }

/-- A completion order exercising all three handler variants, including an
item whose source id does not exist (question 99). -/
def exampleOrder : List WorkItem :=
  [WorkItem.genAnswer 30 20,
   WorkItem.genQuestion 21 11,
   WorkItem.genAnswer 31 99,
   WorkItem.genConversation 40 1]

/-- A freshly created answer-generation task over ten items. -/
def exampleProcessingTask : TaskRecord :=
  createTask 1 7 "answer-generation" 10

/-- A task already completed (used to show recovery leaves it alone). -/
def exampleCompletedTask : TaskRecord :=
  { exampleProcessingTask with
      status := TaskStatus.completed
      completedCount := 10
      percentage := 100
      endTimeSet := true }

/-- An execution state mid-run: four items persisted, task still
processing. -/
def exampleExecState : ExecState :=
  { record := { exampleProcessingTask with completedCount := 4, percentage := 40 }
    store :=
      { exampleStore with
          datasets := [(30, 20)] } }

/-- A backend stub whose every attempt fails transiently. -/
def alwaysTransient : Nat → Except FailureKind String :=
  fun _ => Except.error FailureKind.transient

/-- A backend stub whose first attempt fails permanently. -/
def alwaysPermanent : Nat → Except FailureKind String :=
  fun _ => Except.error FailureKind.permanent

/-- A raw model response with an unterminated `<think>` marker. -/
def exampleUnterminated : List Char :=
  "<think> the closing tag never comes".data

/-- A dataset entry not yet evaluated. -/
def exampleEntry : DatasetEntry :=
  { id := 1, questionId := 20, score := none, aiEvaluation := "" }

/-- An evaluation reply whose score 4.3 passes the schema's range check
but does not sit on the 0.5 grid. -/
def exampleOffGridReply : EvalResponse :=
  { score := mkRat 43 10, evaluation := "plausible but ungridded" }

/-! ## Helper lemmas -/

/-- One handler item preserves linkage integrity: the item either persists
an artifact pointing at a source id it just checked to exist, or persists
nothing; no branch removes anything the existing references point at. -/
theorem linkageOk_processItem (s : Store) (w : WorkItem) (h : linkageOk s) :
    linkageOk (processItem s w) := by
  obtain ⟨hq, hd, hc⟩ := h
  cases w with
  | genQuestion nid cid =>
    by_cases hmem : cid ∈ s.chunkIds
    · simp only [processItem, if_pos hmem]
      refine ⟨?_, ?_, hc⟩
      · intro p hp
        rcases List.mem_cons.mp hp with h1 | h1
        · subst h1; exact hmem
        · exact hq p h1
      · intro p hp
        simp only [List.map_cons]
        exact List.mem_cons_of_mem _ (hd p hp)
    · simpa only [processItem, if_neg hmem] using ⟨hq, hd, hc⟩
  | genAnswer nid qid =>
    by_cases hmem : qid ∈ s.questions.map Prod.fst
    · simp only [processItem, if_pos hmem]
      refine ⟨hq, ?_, hc⟩
      intro p hp
      rcases List.mem_cons.mp hp with h1 | h1
      · subst h1; exact hmem
      · exact hd p h1
    · simpa only [processItem, if_neg hmem] using ⟨hq, hd, hc⟩
  | genConversation nid pid =>
    by_cases hmem : pid ∈ s.projectIds
    · simp only [processItem, if_pos hmem]
      refine ⟨hq, hd, ?_⟩
      intro p hp
      rcases List.mem_cons.mp hp with h1 | h1
      · subst h1; exact hmem
      · exact hc p h1
    · simpa only [processItem, if_neg hmem] using ⟨hq, hd, hc⟩

/-! ## C1 -/

/-- C1: for every artifact generated by any handler variant (question from
a chunk, dataset entry from a question, conversation in a project), the
stored source-item reference is a valid existing id, for every possible
completion order of the task's items: starting from any store with intact
linkage, running the handler items in any order preserves linkage
integrity. -/
theorem linkage_integrity_any_order (s : Store) (order : List WorkItem)
    (h : linkageOk s) : linkageOk (runHandler s order) := by
  induction order generalizing s with
  | nil => simpa [runHandler] using h
  | cons w rest ih =>
    have hstep := linkageOk_processItem s w h
    simpa [runHandler] using ih (processItem s w) hstep

/-- Witness for C1 at a concrete store and completion order. -/
theorem linkage_integrity_any_order_witness :
    linkageOk (runHandler exampleStore exampleOrder) :=
  linkage_integrity_any_order exampleStore exampleOrder (by decide)

/-- Each run of the progress loop adds one count per completed item. -/
theorem runProgress_completedCount (t : TaskRecord) (order : List Nat) :
    (runProgress t order).completedCount = t.completedCount + order.length := by
  induction order generalizing t with
  | nil => simp [runProgress]
  | cons a rest ih =>
    have : runProgress t (a :: rest) = runProgress (updateTaskProgress t 1) rest := rfl
    rw [this, ih]
    simp [updateTaskProgress]
    omega

/-- The progress loop never touches `total_count`. -/
theorem runProgress_totalCount (t : TaskRecord) (order : List Nat) :
    (runProgress t order).totalCount = t.totalCount := by
  induction order generalizing t with
  | nil => rfl
  | cons a rest ih =>
    have : runProgress t (a :: rest) = runProgress (updateTaskProgress t 1) rest := rfl
    rw [this, ih]
    rfl

/-- Every progress update re-establishes the persisted-percentage
equation. -/
theorem updateTaskProgress_percentage (t : TaskRecord) (d : Nat) :
    (updateTaskProgress t d).percentage
      = ((updateTaskProgress t d).completedCount : ℚ)
        / ((updateTaskProgress t d).totalCount : ℚ) * 100 := by
  by_cases h : t.totalCount = 0
  · simp [updateTaskProgress, h]
  · simp [updateTaskProgress, h]

/-- The persisted-percentage equation is an invariant of the progress
loop. -/
theorem runProgress_percentage (t : TaskRecord)
    (h : t.percentage = (t.completedCount : ℚ) / (t.totalCount : ℚ) * 100)
    (order : List Nat) :
    (runProgress t order).percentage
      = ((runProgress t order).completedCount : ℚ)
        / ((runProgress t order).totalCount : ℚ) * 100 := by
  induction order generalizing t with
  | nil => simpa [runProgress] using h
  | cons a rest ih =>
    have hstep := updateTaskProgress_percentage t 1
    have : runProgress t (a :: rest) = runProgress (updateTaskProgress t 1) rest := rfl
    rw [this]
    exact ih (updateTaskProgress t 1) hstep

/-! ## C2 -/

/-- C2: for a task created over `items` and any interleaving `order` of
`update_progress(+1)` calls (each completed item calls once, so `order` is
a duplicate-free selection of the task's items completing in any order),
`completed_count` is monotonically non-decreasing along the run, always
satisfies `completed_count ≤ total_count` (it is a natural number, so
`0 ≤ completed_count` holds by type), and the persisted percentage always
equals `completed_count / total_count * 100`. -/
theorem progress_invariants (id pid : Nat) (ty : String) (items order : List Nat)
    (hnd : order.Nodup) (hsub : order ⊆ items) :
    (∀ j k, j ≤ k →
      (runProgress (createTask id pid ty items.length) (order.take j)).completedCount
        ≤ (runProgress (createTask id pid ty items.length) (order.take k)).completedCount)
    ∧ (∀ k, (runProgress (createTask id pid ty items.length) (order.take k)).completedCount
        ≤ (createTask id pid ty items.length).totalCount)
    ∧ (∀ k, (runProgress (createTask id pid ty items.length) (order.take k)).percentage
        = ((runProgress (createTask id pid ty items.length) (order.take k)).completedCount : ℚ)
          / ((createTask id pid ty items.length).totalCount : ℚ) * 100) := by
  have hlen : order.length ≤ items.length :=
    List.Subperm.length_le (List.subperm_of_subset hnd hsub)
  refine ⟨?_, ?_, ?_⟩
  · intro j k hjk
    rw [runProgress_completedCount, runProgress_completedCount]
    simp only [List.length_take]
    omega
  · intro k
    rw [runProgress_completedCount]
    simp only [List.length_take, createTask]
    omega
  · intro k
    have h0 : (createTask id pid ty items.length).percentage
        = ((createTask id pid ty items.length).completedCount : ℚ)
          / ((createTask id pid ty items.length).totalCount : ℚ) * 100 := by
      simp [createTask]
    have := runProgress_percentage (createTask id pid ty items.length) h0 (order.take k)
    rw [this, runProgress_totalCount]

/-- Witness for C2 at a concrete task and completion order. -/
theorem progress_invariants_witness :
    (∀ j k, j ≤ k →
      (runProgress (createTask 1 7 "answer-generation" [5, 6, 8].length)
          ([6, 5].take j)).completedCount
        ≤ (runProgress (createTask 1 7 "answer-generation" [5, 6, 8].length)
          ([6, 5].take k)).completedCount)
    ∧ (∀ k, (runProgress (createTask 1 7 "answer-generation" [5, 6, 8].length)
          ([6, 5].take k)).completedCount
        ≤ (createTask 1 7 "answer-generation" [5, 6, 8].length).totalCount)
    ∧ (∀ k, (runProgress (createTask 1 7 "answer-generation" [5, 6, 8].length)
          ([6, 5].take k)).percentage
        = ((runProgress (createTask 1 7 "answer-generation" [5, 6, 8].length)
          ([6, 5].take k)).completedCount : ℚ)
          / ((createTask 1 7 "answer-generation" [5, 6, 8].length).totalCount : ℚ) * 100) :=
  progress_invariants 1 7 "answer-generation" [5, 6, 8] [6, 5] (by decide) (by decide)

/-! ## C3 -/

/-- C3 counterexample: cancelling a running task does not produce a status
distinct from `Interrupted` — the `TaskStatus` enum
(`PROCESSING=0, COMPLETED=1, FAILED=2, INTERRUPTED=3`) has no separate
cancelled value, and `cancel_task` on a concrete processing task yields
exactly `interrupted` (code 3). -/
theorem cancel_distinct_status_cex :
    (cancelTask exampleProcessingTask).status = TaskStatus.interrupted
    ∧ (cancelTask exampleProcessingTask).status.code = 3 := by
  constructor <;> rfl

/-- C3 amended: for every execution whose task is in status `processing`,
cancellation sets the status to `Interrupted` — the terminal status the
enum also uses for crash-interrupted tasks, there being no separate
`Cancelled` value — which is terminal and distinct from `Failed` and from
`Completed`, and every item already fully processed and persisted before
the cancellation remains persisted (the store is untouched). -/
theorem cancel_marks_interrupted (e : ExecState)
    (h : e.record.status = TaskStatus.processing) :
    (cancelExec e).record.status = TaskStatus.interrupted
    ∧ (cancelExec e).record.status.isTerminal = true
    ∧ (cancelExec e).record.status ≠ TaskStatus.failed
    ∧ (cancelExec e).record.status ≠ TaskStatus.completed
    ∧ (cancelExec e).store = e.store := by
  refine ⟨?_, ?_, ?_, ?_, rfl⟩ <;>
    simp [cancelExec, cancelTask, h, TaskStatus.isTerminal]

/-- Witness for the amended C3 at a concrete mid-run execution state. -/
theorem cancel_marks_interrupted_witness :
    (cancelExec exampleExecState).record.status = TaskStatus.interrupted
    ∧ (cancelExec exampleExecState).record.status.isTerminal = true
    ∧ (cancelExec exampleExecState).record.status ≠ TaskStatus.failed
    ∧ (cancelExec exampleExecState).record.status ≠ TaskStatus.completed
    ∧ (cancelExec exampleExecState).store = exampleExecState.store :=
  cancel_marks_interrupted exampleExecState rfl

/-! ## C5 -/

/-- C5: on startup, `recover_interrupted_tasks` transitions every record
still marked `processing` from a prior run to `interrupted` and leaves
every other record untouched, and it resumes nothing — the list of
re-executed tasks it produces is empty; resumption requires an explicit
new task. -/
theorem recover_interrupted_tasks_safe (ts : List TaskRecord) (t u : TaskRecord)
    (ht : t.status = TaskStatus.processing)
    (hu : u.status ≠ TaskStatus.processing) :
    (recoverInterruptedTasks ts).1 = ts.map recoverStatus
    ∧ (recoverStatus t).status = TaskStatus.interrupted
    ∧ (recoverStatus t).status.isTerminal = true
    ∧ recoverStatus u = u
    ∧ (recoverInterruptedTasks ts).2 = [] := by
  refine ⟨rfl, ?_, ?_, ?_, rfl⟩ <;>
    simp [recoverStatus, ht, hu, TaskStatus.isTerminal]

/-- Witness for C5 at a concrete pair of records. -/
theorem recover_interrupted_tasks_safe_witness :
    (recoverInterruptedTasks [exampleProcessingTask, exampleCompletedTask]).1
      = [exampleProcessingTask, exampleCompletedTask].map recoverStatus
    ∧ (recoverStatus exampleProcessingTask).status = TaskStatus.interrupted
    ∧ (recoverStatus exampleProcessingTask).status.isTerminal = true
    ∧ recoverStatus exampleCompletedTask = exampleCompletedTask
    ∧ (recoverInterruptedTasks [exampleProcessingTask, exampleCompletedTask]).2 = [] :=
  recover_interrupted_tasks_safe [exampleProcessingTask, exampleCompletedTask]
    exampleProcessingTask exampleCompletedTask rfl (by decide)

/-! ## C6 -/

/-- The item loop splits its input exactly: succeeding items persist their
artifacts, failing items land in the per-item error log, in item order. -/
theorem runItems_eq (process : Nat → Except String (Nat × Nat)) (items : List Nat) :
    runItems process items
      = (items.filterMap (fun i => (process i).toOption),
         items.filterMap (fun i =>
           match process i with
           | Except.ok _ => none
           | Except.error e => some (i, e))) := by
  induction items with
  | nil => rfl
  | cons i rest ih =>
    cases h : process i <;>
      simp [runItems, ih, List.filterMap_cons, h, Except.toOption]

/-- C6: a task-level exception is caught and recorded in the task's
`note` with status `failed`, and an item-level exception skips only that
item while the batch continues — every succeeding item's artifact is
persisted regardless of failures elsewhere, and the failing items are
recorded per item.  `executeTask` returns normally in every case, so no
exception reaches the original caller of `create_task`. -/
theorem error_containment (t : TaskRecord) (e : String)
    (process : Nat → Except String (Nat × Nat)) (items : List Nat) :
    (executeTask t (Except.error e) process items).1.status = TaskStatus.failed
    ∧ (executeTask t (Except.error e) process items).1.note = e
    ∧ (executeTask t (Except.error e) process items).2 = []
    ∧ (executeTask t (Except.ok ()) process items).2
        = items.filterMap (fun i => (process i).toOption)
    ∧ (runItems process items).2
        = items.filterMap (fun i =>
            match process i with
            | Except.ok _ => none
            | Except.error er => some (i, er))
    ∧ (executeTask t (Except.ok ()) process items).1.status = TaskStatus.completed
    ∧ (executeTask t (Except.ok ()) process items).1.completedCount
        = (items.filterMap (fun i => (process i).toOption)).length := by
  have h := runItems_eq process items
  refine ⟨rfl, rfl, rfl, ?_, ?_, rfl, ?_⟩ <;>
    simp [executeTask, h]

/-- Shifting the start index of a backoff-delay schedule peels off its
head. -/
theorem range_map_shift (g : Nat → ℚ) (a r : Nat) :
    (List.range (r + 1)).map (fun i => g (a + i))
      = g a :: (List.range r).map (fun i => g (a + 1 + i)) := by
  have hfun : ((fun i => g (a + i)) ∘ Nat.succ) = fun i => g (a + 1 + i) := by
    funext i
    simp only [Function.comp]
    congr 1
    omega
  rw [List.range_succ_eq_map, List.map_cons, List.map_map, hfun]
  simp

/-- Against an always-transient backend, the retry loop with `r ≥ 1`
attempts left makes exactly `r` calls, sleeping the scheduled backoff
delays between consecutive calls, and fails transiently. -/
theorem retryFrom_allTransient (cfg : RetryConfig) (f : Nat → Except FailureKind String)
    (hf : ∀ n, f n = Except.error FailureKind.transient) :
    ∀ r a, 1 ≤ r →
      retryFrom cfg f r a
        = ((List.range (r - 1)).map (fun i => delayFor cfg (a + i)), r,
           Except.error FailureKind.transient) := by
  intro r
  induction r with
  | zero => intro a h; omega
  | succ r ih =>
    intro a _
    cases r with
    | zero => simp [retryFrom, hf a]
    | succ r' =>
      have hrest := ih (a + 1) (by omega)
      simp only [retryFrom, hf a]
      rw [hrest]
      simp only [Nat.add_sub_cancel]
      rw [range_map_shift (delayFor cfg) a r']

/-! ## C4 -/

/-- C4: against a backend failing transiently on every attempt, the
provider retry loop makes exactly `max_retries` calls (default 3), the
delay slept before retry number `n` (zero-based) is
`min(initial_delay * multiplier^n, max_delay)` (defaults 1.0, 2.0, 60.0),
and a permanent failure on the first call aborts after exactly one call
with no backoff delay. -/
theorem retry_policy (cfg : RetryConfig) (f g : Nat → Except FailureKind String)
    (hmax : 1 ≤ cfg.maxRetries)
    (hf : ∀ n, f n = Except.error FailureKind.transient)
    (hg : g 0 = Except.error FailureKind.permanent) :
    (callWithRetry cfg f).2.1 = cfg.maxRetries
    ∧ (callWithRetry cfg f).1 = (List.range (cfg.maxRetries - 1)).map (delayFor cfg)
    ∧ (∀ n, delayFor cfg n
        = min (cfg.initialRetryDelay * cfg.retryMultiplier ^ n) cfg.maxRetryDelay)
    ∧ (callWithRetry cfg g).2.1 = 1
    ∧ (callWithRetry cfg g).1 = []
    ∧ defaultRetryConfig.maxRetries = 3
    ∧ defaultRetryConfig.initialRetryDelay = 1
    ∧ defaultRetryConfig.retryMultiplier = 2
    ∧ defaultRetryConfig.maxRetryDelay = 60 := by
  have htrans := retryFrom_allTransient cfg f hf cfg.maxRetries 0 hmax
  obtain ⟨m, hm⟩ : ∃ m, cfg.maxRetries = m + 1 := ⟨cfg.maxRetries - 1, by omega⟩
  have hperm : retryFrom cfg g (m + 1) 0 = ([], 1, Except.error FailureKind.permanent) := by
    simp [retryFrom, hg]
  have hzero : (fun i => delayFor cfg (0 + i)) = delayFor cfg := by
    funext i
    rw [Nat.zero_add]
  refine ⟨?_, ?_, fun n => rfl, ?_, ?_, rfl, rfl, rfl, rfl⟩
  · rw [callWithRetry, htrans]
  · rw [callWithRetry, htrans, hzero]
  · rw [callWithRetry, hm, hperm]
  · rw [callWithRetry, hm, hperm]

/-- Witness for C4 at the default configuration and two concrete backend
stubs. -/
theorem retry_policy_witness :
    (callWithRetry defaultRetryConfig alwaysTransient).2.1 = defaultRetryConfig.maxRetries
    ∧ (callWithRetry defaultRetryConfig alwaysTransient).1
        = (List.range (defaultRetryConfig.maxRetries - 1)).map (delayFor defaultRetryConfig)
    ∧ (∀ n, delayFor defaultRetryConfig n
        = min (defaultRetryConfig.initialRetryDelay * defaultRetryConfig.retryMultiplier ^ n)
            defaultRetryConfig.maxRetryDelay)
    ∧ (callWithRetry defaultRetryConfig alwaysPermanent).2.1 = 1
    ∧ (callWithRetry defaultRetryConfig alwaysPermanent).1 = []
    ∧ defaultRetryConfig.maxRetries = 3
    ∧ defaultRetryConfig.initialRetryDelay = 1
    ∧ defaultRetryConfig.retryMultiplier = 2
    ∧ defaultRetryConfig.maxRetryDelay = 60 :=
  retry_policy defaultRetryConfig alwaysTransient alwaysPermanent (by decide)
    (fun _ => rfl) rfl

/-! ## C7 -/

/-- C7: the chain-of-thought extractor is a total function; whenever no
recognised marker pair is present — including a malformed or unterminated
marker, for which `extractTagged` finds no complete pair — it returns an
empty reasoning and the entire input text as the answer. -/
theorem parser_fallback (text : List Char)
    (h1 : extractTagged thinkOpen thinkClose text = none)
    (h2 : extractTagged thinkingOpen thinkingClose text = none) :
    extractAnswerAndCot text = ([], text) := by
  simp [extractAnswerAndCot, h1, h2]

/-- Witness for C7 on a concrete response whose `<think>` marker is never
closed. -/
theorem parser_fallback_witness :
    extractAnswerAndCot exampleUnterminated = ([], exampleUnterminated) :=
  parser_fallback exampleUnterminated (by decide) (by decide)

/-! ## C8 -/

/-- Concatenating the fragment schedule restores the full text. -/
theorem chunkChars_flatten (n : Nat) (l : List Char) : (chunkChars n l).flatten = l := by
  cases l with
  | nil => simp [chunkChars]
  | cons c rest =>
    rw [chunkChars]
    rw [List.flatten_cons]
    rw [chunkChars_flatten n ((c :: rest).drop (n + 1))]
    exact List.take_append_drop (n + 1) (c :: rest)
termination_by l.length
decreasing_by
  simp only [List.length_drop, List.length_cons]
  omega

/-- C8: for the deterministic conformance double and any input, the
concatenation of all fragments yielded by `stream()` equals the text
returned by `complete()` for the same input, whatever the fragment size
schedule. -/
theorem streaming_parity (gen : Nat → List Char) (n x : Nat) :
    (stubStream gen n x).flatten = stubComplete gen x :=
  chunkChars_flatten n (gen x)

/-! ## C9 -/

/-- C9 counterexample: the stored quality score is not always a multiple
of 0.5 — the schema's validation is only the range check `0 ≤ s ≤ 5`, so
a model reply scoring 4.3 passes validation and is stored although it is
not on the 0.5 grid. -/
theorem eval_half_step_cex :
    (evaluateEntry exampleEntry exampleOffGridReply).score = some (mkRat 43 10)
    ∧ isHalfStep (mkRat 43 10) = false
    ∧ scoreValid (mkRat 43 10) = true := by
  refine ⟨?_, ?_, ?_⟩ <;> decide

/-- C9 amended: for every dataset entry the evaluation handler updates,
the stored quality score lies in the range 0 to 5 (the schema validates
`ge=0.0, le=5.0`, rejecting out-of-range replies) and the textual
rationale is stored alongside it; the weighted rubric (question quality
25%, answer quality 35%, text relevance 25%, overall consistency 15%,
summing to 100%) and the 0.5-increment grid are requested of the model by
the evaluation prompt, but the increments are not enforced on the stored
value. -/
theorem eval_score_range (d : DatasetEntry) (resp : EvalResponse)
    (h : scoreValid resp.score = true) :
    (evaluateEntry d resp).score = some resp.score
    ∧ 0 ≤ resp.score ∧ resp.score ≤ 5
    ∧ (evaluateEntry d resp).aiEvaluation = resp.evaluation
    ∧ evaluationWeights.questionQuality + evaluationWeights.answerQuality
        + evaluationWeights.textRelevance + evaluationWeights.overallConsistency = 1 := by
  have hh : decide (0 ≤ resp.score ∧ resp.score ≤ 5) = true := h
  have h' := of_decide_eq_true hh
  refine ⟨?_, h'.1, h'.2, ?_, by norm_num [evaluationWeights]⟩ <;>
    simp [evaluateEntry, h]

/-- Witness for the amended C9 at a concrete entry and reply. -/
theorem eval_score_range_witness :
    (evaluateEntry exampleEntry { score := mkRat 9 2, evaluation := "good" }).score
        = some (mkRat 9 2)
    ∧ (0 : ℚ) ≤ mkRat 9 2 ∧ mkRat 9 2 ≤ 5
    ∧ (evaluateEntry exampleEntry { score := mkRat 9 2, evaluation := "good" }).aiEvaluation
        = "good"
    ∧ evaluationWeights.questionQuality + evaluationWeights.answerQuality
        + evaluationWeights.textRelevance + evaluationWeights.overallConsistency = 1 :=
  eval_score_range exampleEntry { score := mkRat 9 2, evaluation := "good" } (by decide)

/-! ## C10 -/

/-- C10: when the requested port is already in use, `startPythonServer`
spawns no backend process and resolves to a value whose `url` is
`http://localhost:<port>` and whose process handle is null, and
`stopPythonServer` on a null handle is a no-op that sends no signal. -/
theorem start_python_server_port_busy (env : PyEnv) (port : Nat) (eg : Bool)
    (h : env.portBusy = true) :
    (startPythonServer env port).result
      = Except.ok { url := "http://localhost:" ++ toString port, child := none }
    ∧ (startPythonServer env port).spawnCount = 0
    ∧ stopPythonServer none eg = [] := by
  refine ⟨?_, ?_, rfl⟩ <;> simp [startPythonServer, h, serverUrl]

/-- Witness for C10 at a concrete busy-port environment. -/
theorem start_python_server_port_busy_witness :
    (startPythonServer { portBusy := true, backendDirExists := true, healthyWithin := none }
        1717).result
      = Except.ok { url := "http://localhost:" ++ toString 1717, child := none }
    ∧ (startPythonServer { portBusy := true, backendDirExists := true, healthyWithin := none }
        1717).spawnCount = 0
    ∧ stopPythonServer none false = [] :=
  start_python_server_port_busy
    { portBusy := true, backendDirExists := true, healthyWithin := none } 1717 false rfl

end EasyDataset
